import Mathlib

/-!
Verification of the Event Hubs streaming notebook
(`notebooks/Users/sumostag@microsoft.com/08-Streaming/03-Event-Hubs.py`).

The notebook defines a three-field record schema, five literal message
rows, a write configuration, a read configuration with an explicit
starting position, a cast of the `body` column to string, and a
temporary-view registration.  Everything below embeds those values and
the small amount of library semantics the notebook relies on.
-/

namespace EventHubsNotebook

/-- Spark SQL data types used by the notebook (only the ones that occur). -/
inductive DataType where
  | stringType
  | binaryType
  | timestampType
  deriving DecidableEq

/-- `StructField(name, dataType, nullable)` as constructed by the notebook. -/
structure StructField where
  name : String
  dataType : DataType
  nullable : Bool
  deriving DecidableEq

/-- A `StructType` is its list of fields. -/
abbrev StructType := List StructField

/-- A row, as in `Row(v0, v1, v2)`: a list of optional string cells
(`None` in the source becomes `none`). -/
abbrev Row := List (Option String)

/-- Lines 82–86: the schema expected by Event Hubs — `body` non-nullable,
`partitionId` and `partitionKey` nullable. -/
def event_hubs_schema : StructType :=
  [ ⟨"body", DataType.stringType, false⟩,
    ⟨"partitionId", DataType.stringType, true⟩,
    ⟨"partitionKey", DataType.stringType, true⟩ ]

/-- A row conforms to a schema when it has one cell per field and every
cell of a non-nullable field is present. -/
def rowConforms (r : Row) (s : StructType) : Bool :=
  r.length == s.length &&
    (List.zip r s).all fun p => p.2.nullable || p.1.isSome

/-- A local DataFrame: a schema together with its rows. -/
structure DataFrame where
  schema : StructType
  rows : List Row
  deriving DecidableEq

/-- `spark.createDataFrame(rows, schema)`: schema verification rejects any
row that violates a non-nullable field (PySpark raises; here `none`). -/
def createDataFrame (rows : List Row) (s : StructType) : Option DataFrame :=
  if rows.all (rowConforms · s) then some ⟨s, rows⟩ else none

/-- Lines 88–94: the five literal rows, each with both partition fields
absent. -/
def newRows : List Row :=
  [ [some "This is new message 1!", none, none],
    [some "This is new message 2!", none, none],
    [some "This is new message 3!", none, none],
    [some "This is new message 4!", none, none],
    [some "This is new message 5!", none, none] ]

/-- Line 96: `new_messages = spark.createDataFrame(parallelizeRows,
event_hubs_schema)`. -/
def new_messages : Option DataFrame :=
  createDataFrame newRows event_hubs_schema

/-- `df.select(name)`: project onto the single named column; `none` when
the column is absent. -/
def selectCol (df : DataFrame) (name : String) : Option DataFrame :=
  match df.schema.findIdx? (fun f => f.name == name) with
  | none => none
  | some i =>
      some ⟨(df.schema.get? i).toList,
            df.rows.map fun r => [(r.get? i).getD none]⟩

/-! ### JSON serialization of the starting position (line 122) -/

/-- Scalar JSON values, as they appear in the flat dict passed to
`json.dumps` on line 122. -/
inductive JValue where
  | null
  | str (s : String)
  | int (n : Int)
  | bool (b : Bool)
  deriving DecidableEq

/-- Serialize one scalar exactly as Python `json.dumps` renders it. -/
def JValue.dump : JValue → String
  | .null => "null"
  | .str s => "\"" ++ s ++ "\""
  | .int n => toString n
  | .bool true => "true"
  | .bool false => "false"

/-- `json.dumps` of a flat dict, with Python's default separators
(", " between items, ": " between key and value). -/
def jsonDumps (d : List (String × JValue)) : String :=
  "\x7b" ++
    String.intercalate ", "
      (d.map fun p => "\"" ++ p.1 ++ "\": " ++ p.2.dump) ++
  "\x7d"

/-! ### The configurations (lines 74–80 and 118–123) -/

/-- Line 51 leaves the credential as a placeholder for the operator to
fill in; no validation of it is performed anywhere in the notebook. -/
def event_hub_connection_string : String :=
  "#\x7byour-event-hubs-connection-string-primary-key\x7d"

/-- Line 76: the checkpoint location (a filesystem path string). -/
def checkpointLocation : String := "///checkpoint.txt"

/-- Lines 78–80: the write config dict, parametrized by the credential
assigned on line 51 (line 75 copies it into `writeConnectionString`). -/
def ehWriteConf (cred : String) : List (String × String) :=
  [("eventhubs.connectionString", cred)]

/-- Lines 99–105: the options actually supplied to the write operation:
`ehWriteConf` plus the single `.option("checkpointLocation", ...)` call. -/
def writeOptions (cred : String) : List (String × String) :=
  ehWriteConf cred ++ [("checkpointLocation", checkpointLocation)]

/-- Line 122: the starting-position dict passed to `json.dumps`. -/
def startingPositionDict : List (String × JValue) :=
  [ ("offset", JValue.str "-1"),
    ("seqNo", JValue.int (-1)),
    ("enqueuedTime", JValue.null),
    ("isInclusive", JValue.bool true) ]

/-- Lines 120–123: the read config dict, parametrized by the credential
assigned on line 51 (line 119 copies it into `connectionString`). -/
def ehConf (cred : String) : List (String × String) :=
  [ ("eventhubs.connectionString", cred),
    ("eventhubs.startingPosition", jsonDumps startingPositionDict) ]

/-- Look a key up in a config dict or a catalog. -/
def lookupKey {α : Type} (conf : List (String × α)) (k : String) : Option α :=
  (conf.find? fun p => p.1 == k).map Prod.snd

/-! ### The external event-hub service, modelled from the spec -/

/-- The Event Record entity of the spec: mandatory `body`, optional
`partitionId` and `partitionKey`. -/
structure EventRecord where
  body : String
  partitionId : Option String
  partitionKey : Option String
  deriving DecidableEq

/-- Convert a submitted row (schema `[body]`, after `select("body")`) into
the Event Record received by the service: the two optional fields are
absent.  Rows with no body cell never reach the service (the schema
rejected them), so `none` marks that impossible case. -/
def rowToRecord (r : Row) : Option EventRecord :=
  match r with
  | [some b] => some ⟨b, none, none⟩
  | _ => none

/-- Modelled from the spec: the external event hub (absent from `src/`;
per the glossary it is "a managed, partitioned append-only log service")
is a log of Event Records, and a write appends the submitted records to
it — no deduplication, no reordering of the submission. -/
def hubAppend (log : List EventRecord) (submitted : List EventRecord) :
    List EventRecord :=
  log ++ submitted

/-- Outcome of the write operation as the spec describes it: a completion
signal (the updated log) or an authentication/configuration error. -/
inductive WriteResult where
  | ok (newLog : List EventRecord)
  | authError
  deriving DecidableEq

/-- Modelled from the spec: the external write operation (absent from
`src/`) requires a non-empty credential accepted by the endpoint, else it
"fails with an authentication/configuration error"; on success the
records become visible by being appended to the log. -/
def writeOp (valid : String → Bool) (cred : String)
    (log : List EventRecord) (submitted : List EventRecord) : WriteResult :=
  if cred != "" && valid cred then WriteResult.ok (hubAppend log submitted)
  else WriteResult.authError

/-- Modelled from the spec: the records a read observes, given the log at
the time of observation: a read configured with starting offset `o`
"observes all records written after the configured starting position";
offset `-1` is the earliest available position, so nothing is skipped. -/
def observedFrom (offset : Int) (log : List EventRecord) :
    List EventRecord :=
  log.drop (offset + 1).toNat

/-- Modelled from the spec: the external read operation (absent from
`src/`) fails on a missing or invalid credential before any record is
observed; otherwise it exposes the observed records. -/
def readOp (valid : String → Bool) (cred : String) (offset : Int)
    (log : List EventRecord) : Option (List EventRecord) :=
  if cred != "" && valid cred then some (observedFrom offset log)
  else none

/-- The record list submitted by the notebook's write pipeline
(lines 99–105): the rows of `new_messages.select("body")`, turned into
Event Records. -/
def submittedRecords : List EventRecord :=
  match new_messages with
  | none => []
  | some df =>
      match selectCol df "body" with
      | none => []
      | some proj => proj.rows.filterMap rowToRecord

/-- One run of the notebook's write step against a hub log: append the
five literal messages. -/
def writeStep (log : List EventRecord) : List EventRecord :=
  hubAppend log submittedRecords

/-! ### The streaming read, the cast, and the temporary view -/

/-- A column of a relation: its name and type. -/
structure Column where
  name : String
  type : DataType
  deriving DecidableEq

/-- Modelled from the spec: the schema of the streaming relation produced
by the external connector (absent from `src/`) — the `body` payload is
delivered in binary form, alongside the enqueue-time column the SQL layer
queries. -/
def streamingSchema : List Column :=
  [ ⟨"body", DataType.binaryType⟩,
    ⟨"enqueuedTime", DataType.timestampType⟩ ]

/-- `withColumn(name, col.cast("string"))` at the schema level: the named
column's type becomes string, all other columns are untouched. -/
def withColumnCastString (s : List Column) (name : String) : List Column :=
  s.map fun c => if c.name == name then ⟨c.name, DataType.stringType⟩ else c

/-- Line 140: the relation handed to `display` — `streaming_df` with
`body` cast to string. -/
def displayedSchema : List Column :=
  withColumnCastString streamingSchema "body"

/-- Line 151: the relation registered as the temporary view — the same
cast applied to `streaming_df`. -/
def tempViewSchema : List Column :=
  withColumnCastString streamingSchema "body"

/-- Modelled from the spec: `createOrReplaceTempView` (Spark API, absent
from `src/`): registering a relation under a name creates the view, or
replaces an existing view of the same name. -/
def createOrReplaceTempView (cat : List (String × List Column))
    (name : String) (df : List Column) : List (String × List Column) :=
  (name, df) :: cat.filter fun p => p.1 != name

/-- Line 151 as a catalog update: register the cast streaming relation
under the name `eventhubEvents`. -/
def registerStep (cat : List (String × List Column)) :
    List (String × List Column) :=
  createOrReplaceTempView cat "eventhubEvents" tempViewSchema

/-! ## Theorems for the claims -/

/-- The five records the pipeline submits, evaluated. -/
lemma submittedRecords_eq :
    submittedRecords =
      [ ⟨"This is new message 1!", none, none⟩,
        ⟨"This is new message 2!", none, none⟩,
        ⟨"This is new message 3!", none, none⟩,
        ⟨"This is new message 4!", none, none⟩,
        ⟨"This is new message 5!", none, none⟩ ] := by
  decide

/-- Claim C1: in `event_hubs_schema`, `body` is declared non-nullable and
`partitionId`, `partitionKey` nullable; `createDataFrame` rejects any row
whose body cell is null, so every row of a successfully created frame has
a non-null body. -/
theorem C1_schema_body_mandatory :
    (event_hubs_schema.map fun f => (f.name, f.nullable)) =
        [("body", false), ("partitionId", true), ("partitionKey", true)]
    ∧ (∀ rows : List Row, (∃ r ∈ rows, (r.get? 0).getD none = none) →
        createDataFrame rows event_hubs_schema = none)
    ∧ (∀ (rows : List Row) (df : DataFrame),
        createDataFrame rows event_hubs_schema = some df →
        ∀ r ∈ df.rows, ∃ b : String, r.get? 0 = some (some b)) := by
  refine ⟨rfl, ?_, ?_⟩
  · intro rows hr
    obtain ⟨r, hmem, hnull⟩ := hr
    have hbad : rowConforms r event_hubs_schema = false := by
      match r with
      | [] => rfl
      | a :: rest =>
        have ha : a = none := by simpa using hnull
        subst ha
        simp [rowConforms, event_hubs_schema]
    unfold createDataFrame
    rw [if_neg]
    intro hall
    have := List.all_eq_true.mp hall r hmem
    simp [hbad] at this
  · intro rows df hdf r hmem
    unfold createDataFrame at hdf
    split at hdf
    · rename_i hall
      cases hdf
      have hconf := List.all_eq_true.mp hall r hmem
      match r with
      | [] => simp [rowConforms, event_hubs_schema] at hconf
      | a :: rest =>
        simp only [rowConforms, event_hubs_schema] at hconf
        have : a.isSome = true := by
          simp [List.zip, List.all] at hconf
          tauto
        obtain ⟨b, hb⟩ := Option.isSome_iff_exists.mp this
        exact ⟨b, by simp [hb]⟩
    · exact absurd hdf (by simp)

/-- Claim C1 witness: a single row with a null body cell is rejected. -/
theorem C1_schema_body_mandatory_witness :
    createDataFrame [[none, none, none]] event_hubs_schema = none :=
  C1_schema_body_mandatory.2.1 [[none, none, none]]
    ⟨[none, none, none], by simp, rfl⟩

/-- Claim C2: the read config's starting-position entry is exactly the
serialization of `{offset: "-1", seqNo: -1, enqueuedTime: null,
isInclusive: true}` with the claimed field types, and offset `-1` denotes
the earliest available position (a read from it skips nothing). -/
theorem C2_starting_position (cred : String) (log : List EventRecord) :
    lookupKey (ehConf cred) "eventhubs.startingPosition"
        = some (jsonDumps startingPositionDict)
    ∧ startingPositionDict =
        [ ("offset", JValue.str "-1"), ("seqNo", JValue.int (-1)),
          ("enqueuedTime", JValue.null), ("isInclusive", JValue.bool true) ]
    ∧ jsonDumps startingPositionDict =
        "\x7b\"offset\": \"-1\", \"seqNo\": -1, \"enqueuedTime\": null, \"isInclusive\": true\x7d"
    ∧ observedFrom (-1) log = log := by
  refine ⟨?_, rfl, by decide, rfl⟩
  simp [lookupKey, ehConf]

/-- Claim C2 witness: the theorem instantiated at the placeholder
credential and the empty log. -/
theorem C2_starting_position_witness :
    lookupKey (ehConf event_hub_connection_string)
        "eventhubs.startingPosition" = some (jsonDumps startingPositionDict)
    ∧ observedFrom (-1) ([] : List EventRecord) = [] :=
  ⟨(C2_starting_position event_hub_connection_string []).1,
   (C2_starting_position event_hub_connection_string []).2.2.2⟩

/-- Claim C3: every one of the five built rows conforms to the 3-field
schema (`body`, `partitionId`, `partitionKey`); the frame is created from
exactly those rows, and the records the write operation submits are
exactly those rows (bodies in order, both partition fields absent). -/
theorem C3_producer_submits_rows :
    (newRows.all fun r => rowConforms r event_hubs_schema) = true
    ∧ (event_hubs_schema.map StructField.name)
        = ["body", "partitionId", "partitionKey"]
    ∧ new_messages = some ⟨event_hubs_schema, newRows⟩
    ∧ (submittedRecords.map fun e => [some e.body, e.partitionId, e.partitionKey])
        = newRows
    ∧ (∀ (valid : String → Bool) (cred : String) (log : List EventRecord),
        (cred != "" && valid cred) = true →
        writeOp valid cred log submittedRecords
          = WriteResult.ok (hubAppend log submittedRecords)) := by
  refine ⟨by decide, rfl, by decide, by rw [submittedRecords_eq] ; rfl, ?_⟩
  intro valid cred log hc
  simp [writeOp, hc]

/-- Claim C3 witness: with an accepted credential, the write submits the
records and completes. -/
theorem C3_producer_submits_rows_witness :
    writeOp (fun _ => true) "cs" [] submittedRecords
      = WriteResult.ok (hubAppend [] submittedRecords) :=
  C3_producer_submits_rows.2.2.2.2 (fun _ => true) "cs" [] (by decide)

/-- Claim C4: the write step always submits the same five literal
messages, each with both partition fields absent; running it twice
appends the five messages twice (no deduplication), so the record count
grows by exactly 5 on the second run. -/
theorem C4_rerun_appends_five (log : List EventRecord) :
    submittedRecords =
      [ ⟨"This is new message 1!", none, none⟩,
        ⟨"This is new message 2!", none, none⟩,
        ⟨"This is new message 3!", none, none⟩,
        ⟨"This is new message 4!", none, none⟩,
        ⟨"This is new message 5!", none, none⟩ ]
    ∧ writeStep (writeStep log) = log ++ submittedRecords ++ submittedRecords
    ∧ (writeStep (writeStep log)).length = (writeStep log).length + 5 := by
  refine ⟨submittedRecords_eq, ?_, ?_⟩
  · simp [writeStep, hubAppend]
  · simp [writeStep, hubAppend, submittedRecords_eq]

/-- Claim C4 witness: starting from the empty log, two runs of the write
step yield ten records, five more than one run. -/
theorem C4_rerun_appends_five_witness :
    (writeStep (writeStep [])).length = (writeStep []).length + 5 :=
  (C4_rerun_appends_five []).2.2

/-- Claim C5: a missing (empty) or invalid credential makes both the
write and the read operation fail with an authentication error before any
record is observed; the notebook passes its hardcoded placeholder
credential into the config verbatim, with no validation. -/
theorem C5_invalid_credential_fails (valid : String → Bool) (cred : String)
    (log submitted : List EventRecord) (offset : Int)
    (h : cred = "" ∨ valid cred = false) :
    writeOp valid cred log submitted = WriteResult.authError
    ∧ readOp valid cred offset log = none
    ∧ lookupKey (ehWriteConf event_hub_connection_string)
        "eventhubs.connectionString" = some event_hub_connection_string
    ∧ event_hub_connection_string =
        "#\x7byour-event-hubs-connection-string-primary-key\x7d" := by
  have hcond : (cred != "" && valid cred) = false := by
    rcases h with h | h
    · subst h ; rfl
    · simp [h]
  exact ⟨by simp [writeOp, hcond], by simp [readOp, hcond],
         by simp [lookupKey, ehWriteConf], rfl⟩

/-- Claim C5 witness: the empty credential fails both operations. -/
theorem C5_invalid_credential_fails_witness :
    writeOp (fun _ => true) "" [] [] = WriteResult.authError
    ∧ readOp (fun _ => true) "" (-1) [] = none
    ∧ lookupKey (ehWriteConf event_hub_connection_string)
        "eventhubs.connectionString" = some event_hub_connection_string
    ∧ event_hub_connection_string =
        "#\x7byour-event-hubs-connection-string-primary-key\x7d" :=
  C5_invalid_credential_fails (fun _ => true) "" [] [] (-1) (Or.inl rfl)

/-- Claim C6: the write config dict holds exactly the connection-string
key; together with the one `.option` call, the write operation receives
exactly two keys — the connection string and the checkpoint location,
whose value is the filesystem path string — and no others. -/
theorem C6_write_config_keys (cred : String) :
    ehWriteConf cred = [("eventhubs.connectionString", cred)]
    ∧ writeOptions cred =
        [ ("eventhubs.connectionString", cred),
          ("checkpointLocation", "///checkpoint.txt") ]
    ∧ (writeOptions cred).map Prod.fst =
        ["eventhubs.connectionString", "checkpointLocation"] :=
  ⟨rfl, rfl, rfl⟩

/-- Claim C6 witness: the theorem instantiated at the placeholder
credential. -/
theorem C6_write_config_keys_witness :
    (writeOptions event_hub_connection_string).map Prod.fst =
      ["eventhubs.connectionString", "checkpointLocation"] :=
  (C6_write_config_keys event_hub_connection_string).2.2

/-- Claim C7: for any credential value, the write config and the read
config carry that same value under the connection-string key — both are
filled from the single operator-supplied credential. -/
theorem C7_same_credential (cred : String) :
    lookupKey (ehWriteConf cred) "eventhubs.connectionString" = some cred
    ∧ lookupKey (ehConf cred) "eventhubs.connectionString" = some cred := by
  constructor
  · simp [lookupKey, ehWriteConf]
  · simp [lookupKey, ehConf]

/-- Claim C7 witness: the theorem instantiated at the placeholder
credential. -/
theorem C7_same_credential_witness :
    lookupKey (ehWriteConf event_hub_connection_string)
        "eventhubs.connectionString" = some event_hub_connection_string
    ∧ lookupKey (ehConf event_hub_connection_string)
        "eventhubs.connectionString" = some event_hub_connection_string :=
  C7_same_credential event_hub_connection_string

/-- Claim C8: a read configured with starting offset `-1` observes the
whole log — every record written before the read began (`pre`) and every
record written after it (`post`); no record after the configured starting
position is missed. -/
theorem C8_replay_from_beginning (pre post : List EventRecord)
    (r : EventRecord) (h : r ∈ pre ∨ r ∈ post) :
    observedFrom (-1) (pre ++ post) = pre ++ post
    ∧ r ∈ observedFrom (-1) (pre ++ post) := by
  refine ⟨rfl, ?_⟩
  show r ∈ pre ++ post
  exact List.mem_append.mpr h

/-- Claim C8 witness: a record written before the read began is
observed. -/
theorem C8_replay_from_beginning_witness :
    (⟨"This is new message 1!", none, none⟩ : EventRecord)
      ∈ observedFrom (-1) ([⟨"This is new message 1!", none, none⟩] ++ []) :=
  (C8_replay_from_beginning [⟨"This is new message 1!", none, none⟩] []
    ⟨"This is new message 1!", none, none⟩ (Or.inl (by simp))).2

/-- Claim C9: the streaming source delivers `body` as binary, and both
the display step and the temporary-view registration apply the same
cast-to-string to `body`, so the `body` column exposed to the
presentation and SQL layers has string type. -/
theorem C9_body_cast_to_string :
    lookupKey (streamingSchema.map fun c => (c.name, c.type)) "body"
        = some DataType.binaryType
    ∧ displayedSchema = withColumnCastString streamingSchema "body"
    ∧ tempViewSchema = withColumnCastString streamingSchema "body"
    ∧ lookupKey (displayedSchema.map fun c => (c.name, c.type)) "body"
        = some DataType.stringType
    ∧ lookupKey (tempViewSchema.map fun c => (c.name, c.type)) "body"
        = some DataType.stringType :=
  ⟨rfl, rfl, rfl, rfl, rfl⟩

/-- Claim C10: registration under `eventhubEvents` is create-or-replace:
registering again is a no-op (idempotent in effect), exactly one entry
with that name exists afterwards, and it is bound to the most recently
registered relation. -/
theorem C10_create_or_replace_view
    (cat : List (String × List Column)) (name : String)
    (df0 df : List Column) :
    createOrReplaceTempView (createOrReplaceTempView cat name df) name df
        = createOrReplaceTempView cat name df
    ∧ ((createOrReplaceTempView cat name df).filter fun p => p.1 == name)
        = [(name, df)]
    ∧ lookupKey (createOrReplaceTempView (createOrReplaceTempView cat name df0)
        name df) name = some df
    ∧ registerStep (registerStep cat) = registerStep cat
    ∧ lookupKey (registerStep cat) "eventhubEvents" = some tempViewSchema := by
  have hfilter : ∀ (c : List (String × List Column)) (d : List Column),
      createOrReplaceTempView (createOrReplaceTempView c name d) name d
        = createOrReplaceTempView c name d := by
    intro c d
    simp [createOrReplaceTempView, List.filter_filter]
  refine ⟨hfilter cat df, ?_, ?_, ?_, ?_⟩
  · have : (cat.filter fun p => p.1 != name).filter (fun p => p.1 == name)
        = [] := by
      simp [List.filter_filter]
    simp [createOrReplaceTempView, this]
  · simp [lookupKey, createOrReplaceTempView]
  · have : ∀ c : List (String × List Column),
        createOrReplaceTempView (createOrReplaceTempView c "eventhubEvents"
          tempViewSchema) "eventhubEvents" tempViewSchema
          = createOrReplaceTempView c "eventhubEvents" tempViewSchema := by
      intro c
      simp [createOrReplaceTempView, List.filter_filter]
    simpa [registerStep] using this cat
  · simp [lookupKey, registerStep, createOrReplaceTempView]

/-- Claim C10 witness: the theorem instantiated on the empty catalog. -/
theorem C10_create_or_replace_view_witness :
    registerStep (registerStep []) = registerStep []
    ∧ lookupKey (registerStep []) "eventhubEvents" = some tempViewSchema :=
  ⟨(C10_create_or_replace_view [] "eventhubEvents" streamingSchema
      tempViewSchema).2.2.2.1,
   (C10_create_or_replace_view [] "eventhubEvents" streamingSchema
      tempViewSchema).2.2.2.2⟩

end EventHubsNotebook
